import Mathlib

/-!
Shallow embedding of the bussinBank core (models / ledger / forecaster)

Amounts (`Decimal` in the source) are modelled as exact rationals `ℚ`;
`Decimal.quantize(Decimal("0.01"))` (half-even rounding, the default
`ROUND_HALF_EVEN`) is `quantizeCents`.  Calendar dates are modelled as
proleptic day ordinals `ℤ` (as by `date.toordinal()`): the code only ever
compares dates and subtracts them, so only differences of these integers
matter.  `date.today()` and `datetime.utcnow()` are nondeterministic inputs
and become explicit parameters (`today : ℤ`, `now : String`).  Random UUIDs
become an explicit `freshId` parameter.  Python `dict`s are insertion-ordered
association lists.  The CPython refusal to mix `float` and `Decimal` arithmetic
(it raises `TypeError`) is modelled by the tagged type `PyNum` whose
arithmetic is partial; the builtin `float` called with two arguments (as the
source does in `Ledger.emergency_fund_months`) always raises `TypeError` and
is modelled by `pyFloatTwoArgs`.  Exceptions are `Except String`; a mutating
method that can raise returns the (possibly partially) mutated state next to
the `Except` result, because a Python exception does not roll back prior
field mutations.  Fields never read by any computation here
(`Transaction.imported_at`, `Account.currency/institution/is_active`,
`FinancialGoal.priority/category`, timing metadata content) are carried only
where they matter and otherwise omitted.
-/

set_option maxRecDepth 40000

namespace BussinBank

/-- Half-even rounding to an integer: `Decimal.to_integral_value()` /
`round(x)` with the default `ROUND_HALF_EVEN` context. -/
def roundHalfEven (q : ℚ) : ℤ :=
  let fl := ⌊q⌋
  let frac := q - fl
  if frac < 1/2 then fl
  else if 1/2 < frac then fl + 1
  else if fl % 2 = 0 then fl else fl + 1

/-- Source `Decimal.quantize(Decimal("0.01"))`: round to cents, half to even. -/
def quantizeCents (q : ℚ) : ℚ := (roundHalfEven (q * 100) : ℚ) / 100

/-- Python `int(x)` on a decimal: truncation toward zero. -/
def pyInt (q : ℚ) : ℤ := if q < 0 then -(⌊-q⌋) else ⌊q⌋

/-- Python `round(x, 1)`: one decimal place, half to even. -/
def roundTenths (q : ℚ) : ℚ := (roundHalfEven (q * 10) : ℚ) / 10

/-- A CPython number that is either a `Decimal` or a `float`, remembering
which.  Magnitudes are exact rationals (the binary rounding of the source
float values is not modelled; no claim depends on it). -/
inductive PyNum
  | dec : ℚ → PyNum
  | flt : ℚ → PyNum
  deriving DecidableEq

/-- The rational magnitude carried by a `PyNum`. -/
def PyNum.val : PyNum → ℚ
  | .dec q => q
  | .flt q => q

/-- CPython subtraction: `Decimal` and `float` refuse to mix — a mixed
operand pair raises `TypeError`. -/
def PyNum.sub : PyNum → PyNum → Except String PyNum
  | .dec a, .dec b => .ok (.dec (a - b))
  | .flt a, .flt b => .ok (.flt (a - b))
  | _, _ => .error "TypeError: unsupported operand types for - between Decimal and float"

/-- CPython division: same mixing rule as `PyNum.sub`. -/
def PyNum.div : PyNum → PyNum → Except String PyNum
  | .dec a, .dec b => .ok (.dec (a / b))
  | .flt a, .flt b => .ok (.flt (a / b))
  | _, _ => .error "TypeError: unsupported operand types for / between Decimal and float"

/-- The builtin `float` applied to two arguments, as in the source line
`round(float(cash / expenses * 30, 1))` of `Ledger.emergency_fund_months`:
CPython always raises `TypeError` before looking at the values. -/
def pyFloatTwoArgs (_x _y : ℚ) : Except String ℚ :=
  .error "TypeError: float expected at most 1 argument, got 2"

/-- Insertion-ordered dict assignment `m[k] = v`: overwrite in place when the
key exists, else append at the end. -/
def dictSet {α : Type} : List (String × α) → String → α → List (String × α)
  | [], k, v => [(k, v)]
  | (k0, v0) :: rest, k, v =>
    if k0 = k then (k0, v) :: rest else (k0, v0) :: dictSet rest k v

/-- Dict read `m.get(k)` / `m[k]`: first binding of the key. -/
def dictGet {α : Type} : List (String × α) → String → Option α
  | [], _ => none
  | (k0, v0) :: rest, k => if k0 = k then some v0 else dictGet rest k

/-- Source `spending[cat] = spending.get(cat, 0) + v` in one step. -/
def dictAdd : List (String × ℚ) → String → ℚ → List (String × ℚ)
  | [], k, v => [(k, v)]
  | (k0, v0) :: rest, k, v =>
    if k0 = k then (k0, v0 + v) :: rest else (k0, v0) :: dictAdd rest k v

/-- Insert into a key-sorted association list (for Python `sorted(items)`;
keys are unique, so the value component never decides the order). -/
def insertByKey (p : String × ℚ) : List (String × ℚ) → List (String × ℚ)
  | [] => [p]
  | q :: rest => if q.1 < p.1 then q :: insertByKey p rest else p :: q :: rest

/-- Source `sorted(spending.items())` on a dict with unique keys. -/
def sortByKey : List (String × ℚ) → List (String × ℚ)
  | [] => []
  | p :: rest => insertByKey p (sortByKey rest)

/-! Section: models.py -/

inductive TransactionType
  | income | expense | transfer | refund | adjustment
  deriving DecidableEq

inductive AccountType
  | checking | savings | credit_card | investment | crypto | loan | other
  deriving DecidableEq

inductive GoalStatus
  | active | on_track | behind | completed | paused
  deriving DecidableEq

/-- Source `Transaction` (frozen pydantic model), after validation. -/
structure Transaction where
  id : String
  date : ℤ
  amount : ℚ
  description : String
  merchant : Option String
  category : String
  account_id : String
  type : TransactionType
  tags : List String
  notes : Option String
  deriving DecidableEq

/-- Raw input to `Transaction.model_validate`.  A field that is absent, or
present but unparseable into its declared type (e.g. an amount string
`Decimal` cannot parse), is `none`; `amount` carries the exactly parsed value
before the `parse_amount` quantization. -/
structure RawTx where
  id : Option String := none
  date : Option ℤ := none
  amount : Option ℚ := none
  description : Option String := none
  merchant : Option String := none
  category : Option String := none
  account_id : Option String := none
  type : Option TransactionType := none
  tags : List String := []
  notes : Option String := none
  deriving DecidableEq

/-- Source `Transaction.model_validate`: required-field validation (with
`parse_amount` quantizing the amount to cents, mode `before`), then the
`mode="after"` validator `validate_amount_sign`, which rejects a negative
income amount and a positive expense amount — and nothing else.  `freshId`
stands for the `uuid4()` the `default_factory` would generate when `id` is
absent. -/
def Transaction.model_validate (freshId : String) (raw : RawTx) :
    Except String Transaction :=
  match raw.date, raw.amount, raw.description, raw.category, raw.account_id, raw.type with
  | some dt, some amt0, some desc, some cat, some aid, some ty =>
    let amt := quantizeCents amt0
    if ty = TransactionType.income ∧ amt < 0 then
      .error "ValidationError: Income transactions must have positive amount"
    else if ty = TransactionType.expense ∧ 0 < amt then
      .error "ValidationError: Expense transactions must have negative amount"
    else
      .ok { id := raw.id.getD freshId, date := dt, amount := amt,
            description := desc, merchant := raw.merchant, category := cat,
            account_id := aid, type := ty, tags := raw.tags, notes := raw.notes }
  | none, _, _, _, _, _ => .error "ValidationError: date is required"
  | _, none, _, _, _, _ => .error "ValidationError: amount is required"
  | _, _, none, _, _, _ => .error "ValidationError: description is required"
  | _, _, _, none, _, _ => .error "ValidationError: category is required"
  | _, _, _, _, none, _ => .error "ValidationError: account_id is required"
  | _, _, _, _, _, none => .error "ValidationError: type is required"

/-- Source `Account`. -/
structure Account where
  id : String
  name : String
  type : AccountType
  balance : ℚ
  include_in_net_worth : Bool := true
  credit_limit : Option ℚ := none
  deriving DecidableEq

/-- Source `FinancialGoal`.  In the source `target_amount` and
`monthly_contribution` are `PositiveFloat` (Python `float`s) while
`current_amount` is a `Decimal`; the goal computations below tag them
accordingly with `PyNum`. -/
structure FinancialGoal where
  id : String
  name : String
  target_amount : ℚ
  current_amount : ℚ := 0
  target_date : Option ℤ := none
  status : GoalStatus := .active
  monthly_contribution : Option ℚ := none
  deriving DecidableEq

/-- Source `LedgerData`: the aggregate root.  `metadata` is a plain string dict as
in the source (`metadata: dict`). -/
structure LedgerData where
  accounts : List (String × Account) := []
  transactions : List Transaction := []
  goals : List (String × FinancialGoal) := []
  metadata : List (String × String) := []
  deriving DecidableEq

/-- A freshly constructed `LedgerData()` with its metadata default factory
(`version "1.0"`, both timestamps from `utcnow`). -/
def LedgerData.fresh (now : String) : LedgerData :=
  { metadata := [("version", "1.0"), ("created", now), ("last_updated", now)] }

/-- A persisted document as decoded from JSON, before
`LedgerData.model_validate`.  Account and goal records are taken as already
well-formed (no claim concerns their field-level validation); transactions
re-run the full `Transaction` validators; `extra_keys` are top-level keys not
declared on the model, which `extra="forbid"` rejects; `metadata` is
whatever dict the file held. -/
structure RawDoc where
  accounts : List (String × Account) := []
  transactions : List RawTx := []
  goals : List (String × FinancialGoal) := []
  metadata : List (String × String) := []
  extra_keys : List String := []
  deriving DecidableEq

/-- Validate each persisted transaction in order. -/
def validateTxList (freshId : String) : List RawTx → Except String (List Transaction)
  | [] => .ok []
  | raw :: rest => do
    let tx ← Transaction.model_validate freshId raw
    let txs ← validateTxList freshId rest
    .ok (tx :: txs)

/-- Source `LedgerData.model_validate`: `extra="forbid"` rejects unknown top-level
keys; nested transactions are revalidated; the `metadata` field is declared
as a plain `dict`, so its contents — the schema version included — are
accepted verbatim and never inspected. -/
def LedgerData.model_validate (freshId : String) (doc : RawDoc) :
    Except String LedgerData :=
  if doc.extra_keys ≠ [] then
    .error "ValidationError: extra inputs are not permitted"
  else
    match validateTxList freshId doc.transactions with
    | .error e => .error e
    | .ok txs =>
      .ok { accounts := doc.accounts, transactions := txs,
            goals := doc.goals, metadata := doc.metadata }

/-! Section: ledger.py -/

/-- What `Ledger._load_from_disk` finds at `LEDGER_PATH`. -/
inductive DiskFile
  | missing
  | undecodable (msg : String)
  | parsed (doc : RawDoc)

/-- Source `Ledger._load_from_disk`: a missing file yields a fresh `LedgerData`;
a JSON decode error or a `ValidationError` is re-raised as a fatal
`RuntimeError`. -/
def load_from_disk (now freshId : String) : DiskFile → Except String LedgerData
  | .missing => .ok (LedgerData.fresh now)
  | .undecodable m =>
    .error ("RuntimeError: Corrupted ledger.json - fix or delete it: " ++ m)
  | .parsed doc =>
    match LedgerData.model_validate freshId doc with
    | .ok d => .ok d
    | .error e =>
      .error ("RuntimeError: Corrupted ledger.json - fix or delete it: " ++ e)

/-- The `Ledger` object together with the durable file it persists to:
`stored` is the content of `ledger.json` (as a `LedgerData` value; the
`model_dump_json` / `model_validate` serialization round-trip is
value-faithful and modelled as the identity). -/
structure LedgerState where
  data : LedgerData
  stored : Option LedgerData := none
  deriving DecidableEq

/-- Source `Ledger.save`: atomic replace of the canonical file with the whole
current `LedgerData`. -/
def save (s : LedgerState) : LedgerState :=
  { s with stored := some s.data }

/-- Reload from storage, as a later `Ledger()` constructor would. -/
def reload (now : String) (s : LedgerState) : LedgerData :=
  match s.stored with
  | none => LedgerData.fresh now
  | some d => d

/-- Source `Ledger.net_worth`: included balances summed, quantized to cents. -/
def net_worth (d : LedgerData) : ℚ :=
  quantizeCents (d.accounts.foldl
    (fun t p => if p.2.include_in_net_worth then t + p.2.balance else t) 0)

/-- The trailing-30-day expense sum shared by `monthly_burn_rate` and
`emergency_fund_months`: `sum(abs(tx.amount) for tx ... if tx.date >= cutoff
and tx.amount < 0)` with `cutoff = today - 30`. -/
def trailingExpenses (today : ℤ) (txs : List Transaction) : ℚ :=
  txs.foldl
    (fun acc tx => if today - 30 ≤ tx.date ∧ tx.amount < 0 then acc + |tx.amount| else acc)
    0

/-- Source `Ledger.monthly_burn_rate`: `(expenses / 30 * 30).quantize("0.01")`
(the division and multiplication are exact in ℚ). -/
def monthly_burn_rate (today : ℤ) (d : LedgerData) : ℚ :=
  quantizeCents (trailingExpenses today d.transactions / 30 * 30)

/-- Liquid cash: `sum(acc.balance ... if acc.type in ("checking","savings")
and acc.balance > 0)`, as computed identically inside `Ledger.runway_days`,
`Ledger.emergency_fund_months` and `Forecaster._current_liquid_cash`. -/
def liquid_cash (d : LedgerData) : ℚ :=
  d.accounts.foldl
    (fun acc p =>
      if (p.2.type = AccountType.checking ∨ p.2.type = AccountType.savings) ∧ 0 < p.2.balance
      then acc + p.2.balance else acc)
    0

/-- Result of `Ledger.runway_days` (`int | Literal["infinite"]`). -/
inductive Runway
  | infinite
  | days (n : ℤ)
  deriving DecidableEq

/-- Source `Ledger.runway_days`. -/
def runway_days (today : ℤ) (d : LedgerData) : Runway :=
  let burn := monthly_burn_rate today d
  if burn ≤ 0 then .infinite
  else
    let cash := liquid_cash d
    if cash ≤ 0 then .days 0
    else
      let daily_burn := burn / 30
      if 0 < daily_burn then .days (pyInt (cash / daily_burn)) else .infinite

/-- Source `Ledger.add_transaction` (internal): append the transaction, then look
the account up (a `KeyError` here leaves the append in place), then apply
the signed amount and stamp `metadata["last_updated"]`. -/
def add_transaction (now : String) (tx : Transaction) (d : LedgerData) :
    Except String Unit × LedgerData :=
  let d1 := { d with transactions := d.transactions ++ [tx] }
  match dictGet d1.accounts tx.account_id with
  | none => (.error ("KeyError: " ++ tx.account_id), d1)
  | some _ =>
    let accounts2 := d1.accounts.map
      (fun p => (p.1, if p.1 = tx.account_id
                      then { p.2 with balance := p.2.balance + tx.amount }
                      else p.2))
    (.ok (), { d1 with accounts := accounts2,
                       metadata := dictSet d1.metadata "last_updated" now })

/-- Source `Ledger.add_transaction_safe`: validate the raw input, then
`add_transaction`, then `save`.  The pair carries the final state alongside
the outcome, since a raised exception does not undo prior mutations. -/
def add_transaction_safe (now freshId : String) (raw : RawTx) (s : LedgerState) :
    Except String Transaction × LedgerState :=
  match Transaction.model_validate freshId raw with
  | .error e => (.error e, s)
  | .ok tx =>
    match add_transaction now tx s.data with
    | (.error e, d1) => (.error e, { s with data := d1 })
    | (.ok _, d2) => (.ok tx, save { s with data := d2 })

/-- Source `tx.category.split(":")[0].strip() or "uncategorized"`. -/
def topCategory (c : String) : String :=
  let s := (((c.splitOn ":").headD "").trim)
  if s = "" then "uncategorized" else s

/-- Source `Ledger.monthly_spending_by_category`, given the first (`start`) and
last (`endDay`) calendar day of the target month.  (The source derives
`endDay` from the first day of the month by Gregorian arithmetic; the claims
under study concern the amount-sign filter, so the window bounds are taken
as inputs.) -/
def monthly_spending_by_category (start endDay : ℤ) (d : LedgerData) :
    List (String × ℚ) :=
  let spending := d.transactions.foldl
    (fun m tx =>
      if start ≤ tx.date ∧ tx.date ≤ endDay ∧ tx.amount < 0
      then dictAdd m (topCategory tx.category) |tx.amount| else m)
    []
  (sortByKey spending).map (fun p => (p.1, quantizeCents p.2))

/-- One row of `Ledger.goal_summary` output. -/
structure GoalRow where
  name : String
  progress_percent : ℚ
  remaining : ℚ
  monthly_needed : Option ℚ
  days_left : Option ℤ
  on_track : Bool
  deriving DecidableEq

/-- Source `FinancialGoal.is_on_track`.  With no target date it is `True`; past the
date it compares `current_amount >= target_amount` (a `Decimal`/`float`
comparison, which CPython permits); otherwise `required_daily =
(target_amount - current_amount) / days_left` subtracts a `Decimal` from a
`float`, which raises `TypeError`. -/
def is_on_track (today : ℤ) (g : FinancialGoal) : Except String Bool :=
  match g.target_date with
  | none => .ok true
  | some td =>
    let days_left := td - today
    if days_left ≤ 0 then .ok (decide (g.target_amount ≤ g.current_amount))
    else do
      let rd ← PyNum.sub (.flt g.target_amount) (.dec g.current_amount)
      let required_daily := rd.val / (days_left : ℚ)
      match g.monthly_contribution with
      | none => .ok false
      | some mc => .ok (decide (required_daily ≤ mc / 30))

/-- Source `FinancialGoal.progress_percent`:
`min(100.0, float(current_amount / target_amount * 100))` — the division
mixes `Decimal` and `float` and raises `TypeError`. -/
def progress_percent (g : FinancialGoal) : Except String ℚ := do
  let r ← PyNum.div (.dec g.current_amount) (.flt g.target_amount)
  .ok (min 100 (r.val * 100))

/-- One iteration of `Ledger.goal_summary` loop body for an active goal.
Line order follows the source: `days_left`, then
`remaining = goal.target_amount - goal.current_amount` (a `float` minus a
`Decimal`, which raises `TypeError` — everything after it is unreachable in
CPython and translated for completeness), then `monthly_needed`, then the
row. -/
def goalRow (today : ℤ) (g : FinancialGoal) : Except String GoalRow := do
  let days_left : Option ℤ := g.target_date.map (fun td => td - today)
  let remaining ← PyNum.sub (.flt g.target_amount) (.dec g.current_amount)
  let monthly_needed : Option ℚ :=
    match days_left with
    | some dl =>
      if dl ≠ 0 ∧ 0 < dl then
        let m := remaining.val / ((dl : ℚ) / 30)
        if m = 0 then none else some (quantizeCents m)
      else none
    | none => none
  let pp ← progress_percent g
  let ot ← is_on_track today g
  .ok { name := g.name, progress_percent := roundTenths pp,
        remaining := quantizeCents remaining.val,
        monthly_needed := monthly_needed, days_left := days_left,
        on_track := ot }

/-- The loop of `Ledger.goal_summary` over the goal dict values in
insertion order, skipping goals whose status is not `active`. -/
def goalRows (today : ℤ) : List FinancialGoal → Except String (List GoalRow)
  | [] => .ok []
  | g :: gs =>
    if g.status ≠ GoalStatus.active then goalRows today gs
    else do
      let row ← goalRow today g
      let rest ← goalRows today gs
      .ok (row :: rest)

/-- Source `Ledger.goal_summary`. -/
def goal_summary (today : ℤ) (d : LedgerData) : Except String (List GoalRow) :=
  goalRows today (d.goals.map Prod.snd)

/-- Result of `Ledger.emergency_fund_months` when it returns. -/
inductive EmergencyFund
  | infinite
  | months (n : ℤ)
  deriving DecidableEq

/-- Source `Ledger.emergency_fund_months`: `float("inf")` when the trailing
expenses are not positive; otherwise the source evaluates
`round(float(cash / expenses * 30, 1))`, and the two-argument call to the
builtin `float` raises `TypeError` before `round` runs. -/
def emergency_fund_months (today : ℤ) (d : LedgerData) :
    Except String EmergencyFund :=
  let expenses := trailingExpenses today d.transactions
  if expenses ≤ 0 then .ok .infinite
  else do
    let cash := liquid_cash d
    let v ← pyFloatTwoArgs (cash / expenses * 30) 1
    .ok (.months (roundHalfEven v))

/-! Section: forecaster.py -/

/-- Source `AVG_DAYS_PER_MONTH = Decimal("30.4375")`. -/
def AVG_DAYS_PER_MONTH : ℚ := 304375 / 10000

/-- Source `Forecaster._average_daily_net_flow`: mean signed amount over
transactions dated within the trailing 90 days; `0` when none. -/
def average_daily_net_flow (today : ℤ) (d : LedgerData) : ℚ :=
  let cutoff := today - 90
  let tc := d.transactions.foldl
    (fun (p : ℚ × ℕ) tx => if cutoff ≤ tx.date then (p.1 + tx.amount, p.2 + 1) else p)
    (0, 0)
  if 0 < tc.2 then tc.1 / (max 1 tc.2 : ℕ) else 0

/-- Source `Forecaster._average_monthly_net_flow`. -/
def average_monthly_net_flow (today : ℤ) (d : LedgerData) : ℚ :=
  average_daily_net_flow today d * AVG_DAYS_PER_MONTH

/-- Source `Forecaster.project_balance(target_date, extra_monthly_savings,
one_time_expenses)`. -/
def project_balance (today : ℤ) (d : LedgerData) (target_date : ℤ)
    (extra_monthly_savings : ℚ) (one_time_expenses : List (ℤ × ℚ)) : ℚ :=
  let days_ahead := target_date - today
  if days_ahead ≤ 0 then liquid_cash d
  else
    let daily_net := average_daily_net_flow today d + extra_monthly_savings / AVG_DAYS_PER_MONTH
    let projected := liquid_cash d + daily_net * (days_ahead : ℚ)
    let projected := one_time_expenses.foldl
      (fun p e => if today < e.1 ∧ e.1 ≤ target_date then p - e.2 else p)
      projected
    quantizeCents projected

/-- Result of `Forecaster.months_until_goal`
(`int | Literal["never"]`). -/
inductive MonthsResult
  | never
  | months (n : ℤ)
  deriving DecidableEq

/-- Source `Forecaster.months_until_goal`: `0` when net worth already meets the
target; `"never"` when the trailing monthly net flow is not positive; else
`max(1, int(months.to_integral_value() + 1))` where
`months = (target - current) / monthly_net`. -/
def months_until_goal (today : ℤ) (d : LedgerData) (target_amount : ℚ) :
    MonthsResult :=
  let current := net_worth d
  if target_amount ≤ current then .months 0
  else
    let monthly_net := average_monthly_net_flow today d
    if monthly_net ≤ 0 then .never
    else .months (max 1 (roundHalfEven ((target_amount - current) / monthly_net) + 1))

/-! Section: Spec-side definitions (for refinement claims)

These two follow the words of the specification, to be compared with the
source-derived functions above. -/

/-- Source `runway_days` as the spec states it: the `infinite` sentinel if the burn
rate is ≤ 0; else `0` if liquid cash is ≤ 0; else `floor(cash / (burn/30))`. -/
def runway_days_spec (today : ℤ) (d : LedgerData) : Runway :=
  let burn := monthly_burn_rate today d
  if burn ≤ 0 then .infinite
  else if liquid_cash d ≤ 0 then .days 0
  else .days ⌊liquid_cash d / (burn / 30)⌋

/-- Source `project_balance` as the spec states it: current liquid cash unchanged
when the target date is today or earlier; otherwise
`cash + (daily_net + extra/30.4375) × days_ahead` minus the sum of the
one-time expenses dated strictly after today and on or before the target,
quantized to cents. -/
def project_balance_spec (today : ℤ) (d : LedgerData) (target_date : ℤ)
    (extra_monthly_savings : ℚ) (one_time_expenses : List (ℤ × ℚ)) : ℚ :=
  if target_date ≤ today then liquid_cash d
  else
    quantizeCents (liquid_cash d
      + (average_daily_net_flow today d + extra_monthly_savings / AVG_DAYS_PER_MONTH)
        * ((target_date - today : ℤ) : ℚ)
      - ((one_time_expenses.filter
            (fun e => decide (today < e.1 ∧ e.1 ≤ target_date))).map Prod.snd).sum)

/-! Section: Retyping (for the sign-only classification claim) -/

/-- Replace a declared `type`, leaving every other field
(date, amount, category, ...) unchanged. -/
def retypeTx (f : Transaction → TransactionType) (tx : Transaction) : Transaction :=
  { tx with type := f tx }

/-- Retype every transaction of a ledger. -/
def retypeData (f : Transaction → TransactionType) (d : LedgerData) : LedgerData :=
  { d with transactions := d.transactions.map (retypeTx f) }

/-! Section: Concrete fixtures

`EXAMPLE_LEDGER` is the example from `models.py`.  Calendar dates are their
`date.toordinal()` values: 2025-12-07 ↦ 739592, 2025-12-08 ↦ 739593,
2025-12-09 ↦ 739594, 2026-08-01 ↦ 739829. -/

def accChase : Account :=
  { id := "chase", name := "Chase Checking", type := .checking,
    balance := 5420.34, include_in_net_worth := true, credit_limit := none }

def accAmex : Account :=
  { id := "amex", name := "Amex Gold", type := .credit_card,
    balance := -1240.00, include_in_net_worth := true, credit_limit := some 20000 }

def tx1 : Transaction :=
  { id := "tx1", date := 739594, amount := 3200.00,
    description := "Salary deposit", merchant := none,
    category := "income:salary", account_id := "chase",
    type := .income, tags := [], notes := none }

def tx2 : Transaction :=
  { id := "tx2", date := 739593, amount := -87.50,
    description := "Whole Foods", merchant := none,
    category := "food:groceries", account_id := "chase",
    type := .expense, tags := [], notes := none }

def tx3 : Transaction :=
  { id := "tx3", date := 739592, amount := -1200.00,
    description := "Rent", merchant := none,
    category := "housing:rent", account_id := "chase",
    type := .expense, tags := [], notes := none }

def japanGoal : FinancialGoal :=
  { id := "japan", name := "Japan Trip 2026", target_amount := 5000,
    current_amount := 1200, target_date := some 739829,
    status := .active, monthly_contribution := none }

def EXAMPLE_LEDGER : LedgerData :=
  { accounts := [("chase", accChase), ("amex", accAmex)],
    transactions := [tx1, tx2, tx3],
    goals := [("japan", japanGoal)],
    metadata := [("version", "1.0"),
                 ("created", "2025-12-09T00:00:00"),
                 ("last_updated", "2025-12-09T00:00:00")] }

/-- The ledger store holding `EXAMPLE_LEDGER`, not yet persisted. -/
def exampleState : LedgerState := { data := EXAMPLE_LEDGER, stored := none }

/-- A raw transaction that fails field validation: no amount. -/
def rawMissingAmount : RawTx :=
  { date := some 739594, description := some "mystery",
    category := some "misc", account_id := some "chase",
    type := some .expense }

/-- A raw transaction that passes validation but references an account id
absent from the accounts map. -/
def rawGhost : RawTx :=
  { date := some 739594, amount := some (-5),
    description := some "coffee", category := some "food:coffee",
    account_id := some "ghost", type := some .expense }

/-- Source `rawGhost` after validation with fresh id `"t1"`. -/
def txGhost : Transaction :=
  { id := "t1", date := 739594, amount := -5, description := "coffee",
    merchant := none, category := "food:coffee", account_id := "ghost",
    type := .expense, tags := [], notes := none }

/-- A valid raw transaction referencing the existing `"chase"` account. -/
def rawBonus : RawTx :=
  { date := some 739594, amount := some 100,
    description := some "bonus", category := some "income:bonus",
    account_id := some "chase", type := some .income }

/-- Source `rawBonus` after validation with fresh id `"t2"`. -/
def txBonus : Transaction :=
  { id := "t2", date := 739594, amount := 100, description := "bonus",
    merchant := none, category := "income:bonus", account_id := "chase",
    type := .income, tags := [], notes := none }

/-- A raw income transaction with a zero amount. -/
def rawZeroIncome : RawTx :=
  { date := some 739594, amount := some 0,
    description := some "nothing", category := some "income:misc",
    account_id := some "chase", type := some .income }

/-- Source `rawZeroIncome` after validation with fresh id `"t3"`: accepted. -/
def txZeroIncome : Transaction :=
  { id := "t3", date := 739594, amount := 0, description := "nothing",
    merchant := none, category := "income:misc", account_id := "chase",
    type := .income, tags := [], notes := none }

/-- A ledger whose net worth is `0` and whose only trailing-90-day
transaction is an income of `1.00` dated today (739594), so the average
monthly net flow is exactly `30.4375`. -/
def flowLedger : LedgerData :=
  { accounts := [("cash", { id := "cash", name := "Cash", type := .checking,
                            balance := 0, include_in_net_worth := true,
                            credit_limit := none })],
    transactions := [{ id := "f1", date := 739594, amount := 1,
                       description := "tip", merchant := none,
                       category := "income:misc", account_id := "cash",
                       type := .income, tags := [], notes := none }],
    goals := [], metadata := [("version", "1.0")] }

/-- A negative-amount transfer dated today (739594). -/
def txTransfer : Transaction :=
  { id := "tr1", date := 739594, amount := -50, description := "to savings",
    merchant := none, category := "transfer:savings", account_id := "chase",
    type := .transfer, tags := [], notes := none }

/-- A raw income transaction with a strictly negative amount. -/
def rawNegIncome : RawTx :=
  { date := some 739594, amount := some (-3),
    description := some "oops", category := some "income:misc",
    account_id := some "chase", type := some .income }

/-- A raw expense transaction with a strictly positive amount. -/
def rawPosExpense : RawTx :=
  { date := some 739594, amount := some 4,
    description := some "oops", category := some "misc",
    account_id := some "chase", type := some .expense }

/-- Source `Except` outcome as a Boolean (accepted or not). -/
def exceptAccepted {ε α : Type} : Except ε α → Bool
  | .ok _ => true
  | .error _ => false

/-- A structurally valid persisted document carrying an unknown schema
version in its metadata. -/
def doc999 : RawDoc :=
  { accounts := [("chase", accChase)],
    transactions := [],
    goals := [],
    metadata := [("version", "999.0"),
                 ("created", "2025-12-09T00:00:00"),
                 ("last_updated", "2025-12-09T00:00:00")],
    extra_keys := [] }

end BussinBank

deriving instance DecidableEq for Except

namespace BussinBank

/-! Section: Helper lemmas -/

theorem quantize_zero : quantizeCents 0 = 0 := by with_unfolding_all decide

theorem quantize_neg5 : quantizeCents (-5) = -5 := by with_unfolding_all decide

theorem quantize_100 : quantizeCents 100 = 100 := by with_unfolding_all decide

theorem validate_ghost : Transaction.model_validate "t1" rawGhost = .ok txGhost := by
  simp [Transaction.model_validate, rawGhost, txGhost, quantize_neg5]

theorem validate_bonus : Transaction.model_validate "t2" rawBonus = .ok txBonus := by
  simp [Transaction.model_validate, rawBonus, txBonus, quantize_100]

theorem validate_zero : Transaction.model_validate "t3" rawZeroIncome = .ok txZeroIncome := by
  simp [Transaction.model_validate, rawZeroIncome, txZeroIncome, quantize_zero]

/-- A validation failure propagates out of `add_transaction_safe` with the
store untouched. -/
theorem add_safe_validate_error (now freshId : String) (raw : RawTx)
    (s : LedgerState) (e : String)
    (h : Transaction.model_validate freshId raw = .error e) :
    add_transaction_safe now freshId raw s = (.error e, s) := by
  unfold add_transaction_safe
  rw [h]

/-- Source `add_transaction` on an absent account id: the transaction is appended,
then the dict lookup raises `KeyError`, so the append survives while
balances and metadata are untouched. -/
theorem add_transaction_missing (now : String) (tx : Transaction) (d : LedgerData)
    (hm : dictGet d.accounts tx.account_id = none) :
    add_transaction now tx d =
      (.error ("KeyError: " ++ tx.account_id),
       { d with transactions := d.transactions ++ [tx] }) := by
  simp only [add_transaction]
  rw [hm]

/-- Source `add_transaction` on an existing account id: append, apply the amount to
that account, stamp the metadata. -/
theorem add_transaction_found (now : String) (tx : Transaction) (d : LedgerData)
    (acc : Account) (hm : dictGet d.accounts tx.account_id = some acc) :
    add_transaction now tx d =
      (.ok (),
       { accounts := d.accounts.map
           (fun p => (p.1, if p.1 = tx.account_id
                           then { p.2 with balance := p.2.balance + tx.amount }
                           else p.2)),
         transactions := d.transactions ++ [tx],
         goals := d.goals,
         metadata := dictSet d.metadata "last_updated" now }) := by
  simp only [add_transaction]
  rw [hm]

theorem dictGet_update_self (aid : String) (amt : ℚ) :
    ∀ (l : List (String × Account)) (acc : Account), dictGet l aid = some acc →
      dictGet (l.map (fun p => (p.1, if p.1 = aid
                                     then { p.2 with balance := p.2.balance + amt }
                                     else p.2))) aid
        = some { acc with balance := acc.balance + amt } := by
  intro l
  induction l with
  | nil => intro acc h; simp [dictGet] at h
  | cons p rest ih =>
    intro acc h
    obtain ⟨k0, v0⟩ := p
    by_cases hp : k0 = aid
    · subst hp
      simp [dictGet] at h
      subst h
      simp [dictGet]
    · simp [dictGet, hp] at h
      simpa [dictGet, hp] using ih acc h

theorem dictGet_update_other (aid : String) (amt : ℚ) (k : String) (hk : k ≠ aid) :
    ∀ l : List (String × Account),
      dictGet (l.map (fun p => (p.1, if p.1 = aid
                                     then { p.2 with balance := p.2.balance + amt }
                                     else p.2))) k
        = dictGet l k := by
  intro l
  induction l with
  | nil => rfl
  | cons p rest ih =>
    obtain ⟨k0, v0⟩ := p
    by_cases hp : k0 = aid
    · subst hp
      have hk0 : k0 ≠ k := fun hkk => hk hkk.symm
      simp [dictGet, hk0, ih]
    · by_cases hpk : k0 = k
      · subst hpk
        simp [dictGet, hp]
      · simp [dictGet, hp, hpk, ih]

theorem dictGet_dictSet_self {α : Type} (k : String) (v : α) :
    ∀ m : List (String × α), dictGet (dictSet m k v) k = some v := by
  intro m
  induction m with
  | nil => simp [dictSet, dictGet]
  | cons p rest ih =>
    obtain ⟨k0, v0⟩ := p
    by_cases hp : k0 = k
    · subst hp
      simp [dictSet, dictGet]
    · simp [dictSet, dictGet, hp, ih]

/-! Section: Claim theorems -/

/-- C1 (counterexample).  The claim says that whenever
`add_transaction_safe` does not return a created Transaction the ledger is
left completely unmodified, including for a raw input whose `account_id` is
absent from the accounts map.  At this concrete input the call raises
`KeyError` — yet the transaction has already been appended: the state is
modified. -/
theorem C1_counterexample :
    (add_transaction_safe "now1" "t1" rawGhost exampleState).1 =
      .error "KeyError: ghost" ∧
    (add_transaction_safe "now1" "t1" rawGhost exampleState).2.data.transactions =
      [tx1, tx2, tx3, txGhost] ∧
    exampleState.data.transactions = [tx1, tx2, tx3] := by
  have hv : dictGet exampleState.data.accounts txGhost.account_id = none := rfl
  have hs : add_transaction_safe "now1" "t1" rawGhost exampleState =
      (.error ("KeyError: " ++ txGhost.account_id),
       { exampleState with
         data := { exampleState.data with
                   transactions := exampleState.data.transactions ++ [txGhost] } }) := by
    simp only [add_transaction_safe, validate_ghost,
               add_transaction_missing "now1" txGhost exampleState.data hv]
  rw [hs]
  exact ⟨rfl, rfl, rfl⟩

/-- C1 (amended).  On a validation failure the store is untouched and the
error is surfaced.  If validation succeeds but the account id is absent
from the accounts map, the lookup failure is surfaced only after the
transaction has been appended: accounts (hence every balance), goals,
metadata and the persisted file are unchanged, but the appended transaction
is observable — partial application occurs in exactly this case. -/
theorem C1_amended_theorem :
    (∀ (now freshId : String) (raw : RawTx) (s : LedgerState) (e : String),
        Transaction.model_validate freshId raw = .error e →
        add_transaction_safe now freshId raw s = (.error e, s)) ∧
    (∀ (now freshId : String) (raw : RawTx) (s : LedgerState) (tx : Transaction),
        Transaction.model_validate freshId raw = .ok tx →
        dictGet s.data.accounts tx.account_id = none →
        (add_transaction_safe now freshId raw s).1 =
          .error ("KeyError: " ++ tx.account_id) ∧
        (add_transaction_safe now freshId raw s).2.data.transactions =
          s.data.transactions ++ [tx] ∧
        (add_transaction_safe now freshId raw s).2.data.accounts = s.data.accounts ∧
        (add_transaction_safe now freshId raw s).2.data.goals = s.data.goals ∧
        (add_transaction_safe now freshId raw s).2.data.metadata = s.data.metadata ∧
        (add_transaction_safe now freshId raw s).2.stored = s.stored) := by
  constructor
  · exact add_safe_validate_error
  · intro now freshId raw s tx h hm
    have hs : add_transaction_safe now freshId raw s =
        (.error ("KeyError: " ++ tx.account_id),
         { s with data := { s.data with
                            transactions := s.data.transactions ++ [tx] } }) := by
      simp only [add_transaction_safe, h, add_transaction_missing now tx s.data hm]
    rw [hs]
    exact ⟨rfl, rfl, rfl, rfl, rfl, rfl⟩

/-- C1 (witness): both cases of the amended claim instantiated. -/
theorem C1_witness :
    add_transaction_safe "now1" "t0" rawMissingAmount exampleState =
      (.error "ValidationError: amount is required", exampleState) ∧
    (add_transaction_safe "now1" "t1" rawGhost exampleState).2.data.transactions =
      exampleState.data.transactions ++ [txGhost] := by
  constructor
  · exact C1_amended_theorem.1 "now1" "t0" rawMissingAmount exampleState _ rfl
  · exact (C1_amended_theorem.2 "now1" "t1" rawGhost exampleState txGhost
      validate_ghost rfl).2.1

/-- C2.  For a valid raw input whose account exists: the transaction is
appended at the end, the referenced balance of the referenced account becomes its prior
value plus the signed amount, every other account is unchanged,
`metadata.last_updated` is stamped, the whole LedgerData is persisted, and
a reload from storage reproduces the identical transaction sequence. -/
theorem C2_theorem :
    ∀ (now freshId : String) (raw : RawTx) (s : LedgerState)
      (tx : Transaction) (acc : Account),
      Transaction.model_validate freshId raw = .ok tx →
      dictGet s.data.accounts tx.account_id = some acc →
      ∃ s2 : LedgerState,
        add_transaction_safe now freshId raw s = (.ok tx, s2) ∧
        s2.data.transactions = s.data.transactions ++ [tx] ∧
        dictGet s2.data.accounts tx.account_id =
          some { acc with balance := acc.balance + tx.amount } ∧
        (∀ k, k ≠ tx.account_id →
          dictGet s2.data.accounts k = dictGet s.data.accounts k) ∧
        dictGet s2.data.metadata "last_updated" = some now ∧
        s2.stored = some s2.data ∧
        (reload now s2).transactions = s.data.transactions ++ [tx] := by
  intro now freshId raw s tx acc h hm
  have hs : add_transaction_safe now freshId raw s =
      (.ok tx, save { s with data :=
        { accounts := s.data.accounts.map
            (fun p => (p.1, if p.1 = tx.account_id
                            then { p.2 with balance := p.2.balance + tx.amount }
                            else p.2)),
          transactions := s.data.transactions ++ [tx],
          goals := s.data.goals,
          metadata := dictSet s.data.metadata "last_updated" now } }) := by
    simp only [add_transaction_safe, h, add_transaction_found now tx s.data acc hm]
  refine ⟨_, hs, rfl, ?_, ?_, ?_, rfl, rfl⟩
  · exact dictGet_update_self tx.account_id tx.amount s.data.accounts acc hm
  · intro k hk
    exact dictGet_update_other tx.account_id tx.amount k hk s.data.accounts
  · exact dictGet_dictSet_self "last_updated" now s.data.metadata

/-- C2 (witness): a bonus income applied to the example ledger account `chase`
account. -/
theorem C2_witness :
    (add_transaction_safe "now2" "t2" rawBonus exampleState).1 = .ok txBonus ∧
    (add_transaction_safe "now2" "t2" rawBonus exampleState).2.data.transactions =
      exampleState.data.transactions ++ [txBonus] ∧
    dictGet (add_transaction_safe "now2" "t2" rawBonus exampleState).2.data.accounts
        "chase" =
      some { accChase with balance := accChase.balance + txBonus.amount } ∧
    dictGet (add_transaction_safe "now2" "t2" rawBonus exampleState).2.data.metadata
        "last_updated" = some "now2" ∧
    (add_transaction_safe "now2" "t2" rawBonus exampleState).2.stored =
      some (add_transaction_safe "now2" "t2" rawBonus exampleState).2.data := by
  obtain ⟨s2, h1, h2, h3, _h4, h5, h6, _h7⟩ :=
    C2_theorem "now2" "t2" rawBonus exampleState txBonus accChase validate_bonus rfl
  rw [h1]
  exact ⟨rfl, h2, h3, h5, h6⟩

/-- C3 (counterexample).  The claim says income transactions must have
`amount > 0` and that a zero amount is rejected; the validator only rejects
`amount < 0` for income, so an income transaction with amount `0` is
accepted. -/
theorem C3_counterexample :
    Transaction.model_validate "t3" rawZeroIncome = .ok txZeroIncome ∧
    txZeroIncome.type = TransactionType.income ∧
    ¬ (0 < txZeroIncome.amount) := by
  refine ⟨validate_zero, rfl, ?_⟩
  simp [txZeroIncome]

/-- C3 (amended).  Accepted transactions satisfy only the weak sign
invariants `income ⇒ amount ≥ 0` and `expense ⇒ amount ≤ 0`; a strictly
contradicting sign (negative income, positive expense) is rejected with a
validation error, and any rejected construction produces no state change. -/
theorem C3_amended_theorem :
    (∀ (freshId : String) (raw : RawTx) (tx : Transaction),
        Transaction.model_validate freshId raw = .ok tx →
        (tx.type = TransactionType.income → 0 ≤ tx.amount) ∧
        (tx.type = TransactionType.expense → tx.amount ≤ 0)) ∧
    (∀ (now freshId : String) (raw : RawTx) (s : LedgerState) (e : String),
        Transaction.model_validate freshId raw = .error e →
        add_transaction_safe now freshId raw s = (.error e, s)) ∧
    (∀ (freshId : String) (raw : RawTx) (dt : ℤ) (a : ℚ) (de ca ai : String),
        raw.date = some dt → raw.amount = some a → raw.description = some de →
        raw.category = some ca → raw.account_id = some ai →
        raw.type = some TransactionType.income → quantizeCents a < 0 →
        Transaction.model_validate freshId raw =
          .error "ValidationError: Income transactions must have positive amount") ∧
    (∀ (freshId : String) (raw : RawTx) (dt : ℤ) (a : ℚ) (de ca ai : String),
        raw.date = some dt → raw.amount = some a → raw.description = some de →
        raw.category = some ca → raw.account_id = some ai →
        raw.type = some TransactionType.expense → 0 < quantizeCents a →
        Transaction.model_validate freshId raw =
          .error "ValidationError: Expense transactions must have negative amount") := by
  refine ⟨?_, add_safe_validate_error, ?_, ?_⟩
  · intro freshId raw tx h
    simp only [Transaction.model_validate] at h
    split at h
    · split at h
      · exact absurd h (by simp)
      · split at h
        · exact absurd h (by simp)
        · rename_i hcond1 hcond2
          injection h with h3
          subst h3
          push_neg at hcond1 hcond2
          exact ⟨fun hty => hcond1 hty, fun hty => hcond2 hty⟩
    · exact absurd h (by simp)
    · exact absurd h (by simp)
    · exact absurd h (by simp)
    · exact absurd h (by simp)
    · exact absurd h (by simp)
    · exact absurd h (by simp)
  · intro freshId raw dt a de ca ai h1 h2 h3 h4 h5 h6 h7
    unfold Transaction.model_validate
    rw [h1, h2, h3, h4, h5, h6]
    simp [h7]
  · intro freshId raw dt a de ca ai h1 h2 h3 h4 h5 h6 h7
    unfold Transaction.model_validate
    rw [h1, h2, h3, h4, h5, h6]
    simp [h7]

/-- C3 (witness): both directions at concrete inputs — an accepted income
transaction with a nonnegative amount, an untouched store after a rejected
input, and the two strict-sign rejections. -/
theorem C3_witness :
    ((txBonus.type = TransactionType.income → 0 ≤ txBonus.amount) ∧
     (txBonus.type = TransactionType.expense → txBonus.amount ≤ 0)) ∧
    add_transaction_safe "now3" "t0" rawMissingAmount exampleState =
      (.error "ValidationError: amount is required", exampleState) ∧
    Transaction.model_validate "t5" rawNegIncome =
      .error "ValidationError: Income transactions must have positive amount" ∧
    Transaction.model_validate "t6" rawPosExpense =
      .error "ValidationError: Expense transactions must have negative amount" := by
  refine ⟨C3_amended_theorem.1 "t2" rawBonus txBonus validate_bonus,
          C3_amended_theorem.2.1 "now3" "t0" rawMissingAmount exampleState
            "ValidationError: amount is required" rfl,
          C3_amended_theorem.2.2.1 "t5" rawNegIncome 739594 (-3) "oops"
            "income:misc" "chase" rfl rfl rfl rfl rfl rfl
            (by with_unfolding_all decide),
          C3_amended_theorem.2.2.2 "t6" rawPosExpense 739594 4 "oops"
            "misc" "chase" rfl rfl rfl rfl rfl rfl
            (by with_unfolding_all decide)⟩

/-- C4.  The source comments `# ceiling` but computes
`int(months.to_integral_value() + 1)`, i.e. half-even rounding plus one: on
`flowLedger` (net worth 0, average monthly net flow exactly 30.4375) with
target 30.4375 the exact quotient is 1, the true ceiling (minimum 1) is 1,
but the code returns 2. -/
theorem C4_code_bug :
    months_until_goal 739594 flowLedger AVG_DAYS_PER_MONTH = .months 2 ∧
    net_worth flowLedger < AVG_DAYS_PER_MONTH ∧
    (⌈(AVG_DAYS_PER_MONTH - net_worth flowLedger) /
        average_monthly_net_flow 739594 flowLedger⌉ : ℤ) = 1 := by
  refine ⟨?_, ?_, ?_⟩ <;> with_unfolding_all decide

/-- C5.  With a positive trailing-30-day expense total the source evaluates
`round(float(cash / expenses * 30, 1))` and the two-argument call to the
builtin `float` raises `TypeError`, so no numeric value is ever returned;
the `+infinity` sentinel branch for zero trailing expenses does work. -/
theorem C5_code_bug :
    emergency_fund_months 739594 EXAMPLE_LEDGER =
      .error "TypeError: float expected at most 1 argument, got 2" ∧
    0 < trailingExpenses 739594 EXAMPLE_LEDGER.transactions ∧
    emergency_fund_months 739594 flowLedger = .ok .infinite := by
  refine ⟨?_, ?_, ?_⟩ <;> with_unfolding_all decide

/-- C6.  `goal_summary` computes
`remaining = goal.target_amount - goal.current_amount`, a `float` minus a
`Decimal`, which CPython rejects with `TypeError`; so the method raises for
the example active `japan` goal of the example ledger instead of returning its report
row. -/
theorem C6_code_bug :
    goal_summary 739594 EXAMPLE_LEDGER =
      .error "TypeError: unsupported operand types for - between Decimal and float" ∧
    dictGet EXAMPLE_LEDGER.goals "japan" = some japanGoal ∧
    japanGoal.status = GoalStatus.active := by
  refine ⟨?_, rfl, rfl⟩
  with_unfolding_all decide

/-- C7.  `runway_days` agrees with the case analysis of the spec: `infinite` when
the burn rate is ≤ 0, else `0` when liquid cash is ≤ 0, else
`floor(cash / (burn/30))`. -/
theorem C7_theorem :
    ∀ (today : ℤ) (d : LedgerData),
      runway_days today d = runway_days_spec today d := by
  intro today d
  by_cases hb : monthly_burn_rate today d ≤ 0
  · simp [runway_days, runway_days_spec, hb]
  · by_cases hc : liquid_cash d ≤ 0
    · simp [runway_days, runway_days_spec, hb, hc]
    · push_neg at hb hc
      have hdb : (0:ℚ) < monthly_burn_rate today d / 30 := by positivity
      have hq : (0:ℚ) ≤ liquid_cash d / (monthly_burn_rate today d / 30) :=
        le_of_lt (div_pos hc hdb)
      simp [runway_days, runway_days_spec, not_le.mpr hb, not_le.mpr hc, hdb,
            pyInt, not_lt.mpr hq]

theorem foldl_oneTime_sub (today target : ℤ) :
    ∀ (l : List (ℤ × ℚ)) (p0 : ℚ),
      l.foldl (fun p e => if today < e.1 ∧ e.1 ≤ target then p - e.2 else p) p0 =
        p0 - ((l.filter (fun e => decide (today < e.1 ∧ e.1 ≤ target))).map
                Prod.snd).sum := by
  intro l
  induction l with
  | nil => intro p0; simp
  | cons e rest ih =>
    intro p0
    by_cases he : today < e.1 ∧ e.1 ≤ target
    · have hd : decide (today < e.1 ∧ e.1 ≤ target) = true := decide_eq_true he
      simp only [List.foldl_cons, List.filter_cons, hd, if_pos he, if_true]
      rw [ih]
      simp only [List.map_cons, List.sum_cons]
      ring
    · have hd : decide (today < e.1 ∧ e.1 ≤ target) = false :=
        decide_eq_false he
      simp only [List.foldl_cons, List.filter_cons, hd, if_neg he,
                 Bool.false_eq_true, if_false]
      exact ih p0

/-- C8.  `project_balance` agrees with the formula of the spec: unchanged liquid
cash for a past-or-today target date, otherwise
`cash + (daily_net + extra/30.4375) × days_ahead` minus the sum of the
one-time expenses dated in `(today, target]`, quantized to cents. -/
theorem C8_theorem :
    ∀ (today : ℤ) (d : LedgerData) (target_date : ℤ)
      (extra_monthly_savings : ℚ) (one_time_expenses : List (ℤ × ℚ)),
      project_balance today d target_date extra_monthly_savings one_time_expenses =
        project_balance_spec today d target_date extra_monthly_savings
          one_time_expenses := by
  intro today d target extra ote
  by_cases h : target - today ≤ 0
  · have h2 : target ≤ today := by omega
    simp [project_balance, project_balance_spec, h, h2]
  · have h2 : ¬ target ≤ today := by omega
    simp only [project_balance, project_balance_spec, if_neg h, if_neg h2]
    rw [foldl_oneTime_sub]

/-- C9 (counterexample).  The claim says a persisted document with an
unknown schema version fails to load; `doc999` carries version `"999.0"`
and loads successfully, version accepted verbatim. -/
theorem C9_counterexample :
    load_from_disk "now9" "t9" (.parsed doc999) =
      .ok { accounts := [("chase", accChase)], transactions := [], goals := [],
            metadata := [("version", "999.0"),
                         ("created", "2025-12-09T00:00:00"),
                         ("last_updated", "2025-12-09T00:00:00")] } ∧
    dictGet doc999.metadata "version" = some "999.0" := ⟨rfl, rfl⟩

/-- C9 (amended).  Loading validates structure only: a missing file yields a
fresh LedgerData; whether a document is accepted is entirely independent of
its metadata content (the schema version is never consulted); and a loaded
metadata of the document — version included — is carried over verbatim, never
rejected or migrated. -/
theorem C9_amended_theorem :
    (∀ now freshId : String,
        load_from_disk now freshId .missing = .ok (LedgerData.fresh now)) ∧
    (∀ (freshId : String) (doc : RawDoc) (m1 m2 : List (String × String)),
        exceptAccepted (LedgerData.model_validate freshId { doc with metadata := m1 }) =
          exceptAccepted (LedgerData.model_validate freshId { doc with metadata := m2 })) ∧
    (∀ (freshId : String) (doc : RawDoc) (d : LedgerData),
        LedgerData.model_validate freshId doc = .ok d →
        d.metadata = doc.metadata) := by
  refine ⟨fun now freshId => rfl, ?_, ?_⟩
  · intro freshId doc m1 m2
    by_cases hx : doc.extra_keys = []
    · simp only [LedgerData.model_validate, hx]
      cases h : validateTxList freshId doc.transactions with
      | error e => simp [h, exceptAccepted]
      | ok txs => simp [h, exceptAccepted]
    · simp [LedgerData.model_validate, hx, exceptAccepted]
  · intro freshId doc d h
    unfold LedgerData.model_validate at h
    split at h
    · exact absurd h (by simp)
    · split at h
      · exact absurd h (by simp)
      · injection h with h3
        subst h3
        rfl

/-- C9 (witness): the amended claim instantiated at `doc999`. -/
theorem C9_witness :
    load_from_disk "nowW" "tW" .missing = .ok (LedgerData.fresh "nowW") ∧
    exceptAccepted (LedgerData.model_validate "tW"
        { doc999 with metadata := [("version", "999.0")] }) =
      exceptAccepted (LedgerData.model_validate "tW"
        { doc999 with metadata := [("version", "1.0")] }) ∧
    (LedgerData.model_validate "t9" doc999).map LedgerData.metadata =
      .ok doc999.metadata := by
  refine ⟨C9_amended_theorem.1 "nowW" "tW",
          C9_amended_theorem.2.1 "tW" doc999 [("version", "999.0")]
            [("version", "1.0")], ?_⟩
  have h := C9_amended_theorem.2.2 "t9" doc999
      { accounts := doc999.accounts, transactions := [], goals := doc999.goals,
        metadata := doc999.metadata } rfl
  exact congrArg Except.ok h

theorem trailingExpenses_init (today : ℤ) :
    ∀ (l : List Transaction) (a : ℚ),
      l.foldl (fun acc tx => if today - 30 ≤ tx.date ∧ tx.amount < 0
                             then acc + |tx.amount| else acc) a =
        a + l.foldl (fun acc tx => if today - 30 ≤ tx.date ∧ tx.amount < 0
                                   then acc + |tx.amount| else acc) 0 := by
  intro l
  induction l with
  | nil => intro a; simp
  | cons tx rest ih =>
    intro a
    simp only [List.foldl_cons]
    by_cases hc : today - 30 ≤ tx.date ∧ tx.amount < 0
    · rw [if_pos hc, if_pos hc, ih (a + |tx.amount|), ih (0 + |tx.amount|)]
      ring
    · rw [if_neg hc, if_neg hc, ih a]

/-- C10.  `monthly_burn_rate` and `monthly_spending_by_category` classify by
amount sign alone: retyping every transaction (e.g. marking them all
`transfer`) changes neither result, and any negative-amount transaction
inside the window — its declared type notwithstanding — adds its magnitude
to the trailing expense total both functions are built on. -/
theorem C10_theorem :
    (∀ (today : ℤ) (d : LedgerData) (f : Transaction → TransactionType),
        monthly_burn_rate today (retypeData f d) = monthly_burn_rate today d) ∧
    (∀ (start endDay : ℤ) (d : LedgerData) (f : Transaction → TransactionType),
        monthly_spending_by_category start endDay (retypeData f d) =
          monthly_spending_by_category start endDay d) ∧
    (∀ (today : ℤ) (tx : Transaction) (txs : List Transaction),
        today - 30 ≤ tx.date → tx.amount < 0 →
        trailingExpenses today (tx :: txs) =
          |tx.amount| + trailingExpenses today txs) := by
  refine ⟨?_, ?_, ?_⟩
  · intro today d f
    simp [monthly_burn_rate, trailingExpenses, retypeData, List.foldl_map, retypeTx]
  · intro start endDay d f
    simp [monthly_spending_by_category, retypeData, List.foldl_map, retypeTx]
  · intro today tx txs hd ha
    unfold trailingExpenses
    simp only [List.foldl_cons, if_pos (And.intro hd ha)]
    rw [trailingExpenses_init, zero_add]

/-- C10 (witness): a negative-amount `transfer` dated today counts toward
the trailing expense total. -/
theorem C10_witness :
    trailingExpenses 739594 [txTransfer] =
      |txTransfer.amount| + trailingExpenses 739594 [] :=
  C10_theorem.2.2 739594 txTransfer [] (by decide) (by with_unfolding_all decide)

end BussinBank
